import Mathlib

/-!
Verification of the OCSP CertID builder and response-envelope codec of
`Sources/PackageCollectionsSigningLibc` (vendored from OpenSSL's `ocsp_lib.c`
and `ocsp.h`).

The shallow embedding below translates the C source into Lean:
machine buffers become `List Nat` (one `Nat` per octet), the `NULL`-on-failure
convention of the C functions becomes `Except`/`Option` results, and the
external collaborators named by the design (the X.509 object model, the digest
provider, the object-identifier registry) are modelled by the minimal
structures the source code reads from them.
-/

/-! ## External collaborators: digest provider and object registry -/

/-- The unassigned NID, `NID_undef` in the object registry. -/
def NID_undef : Nat := 0

/-- An ASN.1 object identifier handle, identified (as in the registry the C
code consults through `OBJ_nid2obj`) by its numeric NID. -/
structure ASN1_OBJECT where
  nid : Nat
deriving DecidableEq, Repr

/-- `OBJ_nid2obj`: look up the object for a NID in the registry.  The external
registry resolves every assigned NID and fails on `NID_undef`. -/
def OBJ_nid2obj (nid : Nat) : Option ASN1_OBJECT :=
  if nid = NID_undef then none else some ⟨nid⟩

/-- A message-digest algorithm descriptor (`EVP_MD`): its registered NID, its
declared output length, and the digest computation itself.  The digest
primitive is an external collaborator; its contract (a fixed-size output of
`mdSize` octets for every input) is carried as the field `digest_len`. -/
structure EVP_MD where
  nid : Nat
  mdSize : Nat
  digest : List Nat → List Nat
  digest_len : ∀ bs, (digest bs).length = mdSize

/-- `EVP_MD_type`: the NID of a digest algorithm. -/
def EVP_MD_type (d : EVP_MD) : Nat := d.nid

/-- `EVP_Digest`: one-shot digest of a buffer with the given algorithm. -/
def EVP_Digest (data : List Nat) (d : EVP_MD) : List Nat := d.digest data

/-- Stand-in computation for the external SHA-1 primitive (the hash function
itself is an out-of-scope collaborator; only its interface matters here). -/
def sha1Stub (bs : List Nat) : List Nat :=
  List.replicate 20 ((bs.foldl (fun a b => a + b) 0) % 256)

/-- `EVP_sha1`: the SHA-1 descriptor, NID 64 in the registry, 20-octet
output.  The computation is the external primitive's stand-in. -/
def EVP_sha1 : EVP_MD where
  nid := 64
  mdSize := 20
  digest := sha1Stub
  digest_len := fun _ => List.length_replicate 20 _

/-! ## External collaborator: the X.509 object model -/

/-- An X.509 distinguished name (`X509_NAME`).  The code only ever uses a
name through its canonical DER encoding (to digest it); `der` is that
encoding, `none` when the name cannot be canonically encoded. -/
structure X509_NAME where
  der : Option (List Nat)
deriving DecidableEq, Repr

/-- `X509_NAME_digest`: digest the canonical DER encoding of a name; fails
(returns 0 in C) when the name cannot be encoded. -/
def X509_NAME_digest (n : X509_NAME) (d : EVP_MD) : Option (List Nat) :=
  n.der.map d.digest

/-- An ASN.1 BIT STRING (`ASN1_BIT_STRING`): `data` holds the content octets
only — the ASN.1 tag and length octets are not part of it.  This is exactly
what `X509_get0_pubkey_bitstr` exposes for a certificate's public key. -/
structure ASN1_BIT_STRING where
  data : List Nat
deriving DecidableEq, Repr

/-- An ASN.1 INTEGER (`ASN1_INTEGER`), an arbitrary-precision integer. -/
abbrev ASN1_INTEGER := Int

/-- An X.509 certificate, restricted to the fields the OCSP code reads. -/
structure X509 where
  subject_name : X509_NAME
  issuer_name : X509_NAME
  serialNumber : ASN1_INTEGER
  pubkey_bitstr : ASN1_BIT_STRING
deriving DecidableEq, Repr

/-- `X509_get_issuer_name`. -/
def X509_get_issuer_name (x : X509) : X509_NAME := x.issuer_name

/-- `X509_get_subject_name`. -/
def X509_get_subject_name (x : X509) : X509_NAME := x.subject_name

/-- `X509_get0_serialNumber`. -/
def X509_get0_serialNumber (x : X509) : ASN1_INTEGER := x.serialNumber

/-- `X509_get0_pubkey_bitstr`. -/
def X509_get0_pubkey_bitstr (x : X509) : ASN1_BIT_STRING := x.pubkey_bitstr

/-! ## The CertID data model -/

/-- `V_ASN1_NULL`, the ASN.1 NULL universal type tag number. -/
def V_ASN1_NULL : Nat := 5

/-- An `ASN1_TYPE` value, reduced to the type tag the code sets. -/
structure ASN1_TYPE where
  type : Nat
deriving DecidableEq, Repr

/-- An `X509_ALGOR` algorithm identifier: the algorithm object and its
parameter (`none` models an absent parameter). -/
structure X509_ALGOR where
  algorithm : ASN1_OBJECT
  parameter : Option ASN1_TYPE
deriving DecidableEq, Repr

/-- An OCSP certificate identifier (`OCSP_CERTID`).  `serialNumber` is `none`
when no serial number was set (the field is left at its fresh default). -/
structure OCSP_CERTID where
  hashAlgorithm : X509_ALGOR
  issuerNameHash : List Nat
  issuerKeyHash : List Nat
  serialNumber : Option ASN1_INTEGER
deriving DecidableEq, Repr

/-- The CertID builder's failure taxonomy.  The C functions signal every
failure by returning `NULL`; the constructors name the distinct `goto err`
sites of `OCSP_cert_id_new`. -/
inductive OCSPBuildError where
  | UnsupportedDigest
  | EncodingError
  | DigestError
deriving DecidableEq, Repr

/-! ## The CertID builder (`ocsp_lib.c`) -/

/-- `OCSP_cert_id_new` from `ocsp_lib.c`: build a CertID from a digest
algorithm, an issuer name, the issuer public-key bit-string and an optional
serial number.  Mirrors the C control flow: the algorithm identifier is the
registry object for the digest's NID with an ASN.1 NULL parameter; the name
hash digests the name's canonical encoding; the key hash digests the
bit-string's content octets (`issuerKey->data`), excluding tag and length;
the serial number is copied only when supplied.  Every `goto err` becomes an
error result. -/
def OCSP_cert_id_new (dgst : EVP_MD) (issuerName : X509_NAME)
    (issuerKey : ASN1_BIT_STRING) (serialNumber : Option ASN1_INTEGER) :
    Except OCSPBuildError OCSP_CERTID :=
  if EVP_MD_type dgst = NID_undef then
    .error .UnsupportedDigest
  else
    match OBJ_nid2obj (EVP_MD_type dgst) with
    | none => .error .UnsupportedDigest
    | some obj =>
      match X509_NAME_digest issuerName dgst with
      | none => .error .EncodingError
      | some nameHash =>
        .ok { hashAlgorithm := { algorithm := obj
                                 parameter := some { type := V_ASN1_NULL } }
              issuerNameHash := nameHash
              issuerKeyHash := EVP_Digest issuerKey.data dgst
              serialNumber := serialNumber }

/-- `OCSP_cert_to_id` from `ocsp_lib.c`: convert a certificate and its issuer
to a CertID.  A missing digest defaults to SHA-1; with a subject certificate
the hashed name is the subject's issuer field and the serial number the
subject's; without one, the hashed name is the issuer's own subject field and
no serial number is set.  The key is always the issuer's public-key
bit-string. -/
def OCSP_cert_to_id (dgst : Option EVP_MD) (subject : Option X509)
    (issuer : X509) : Except OCSPBuildError OCSP_CERTID :=
  let d := dgst.getD EVP_sha1
  match subject with
  | some s =>
      OCSP_cert_id_new d (X509_get_issuer_name s) (X509_get0_pubkey_bitstr issuer)
        (some (X509_get0_serialNumber s))
  | none =>
      OCSP_cert_id_new d (X509_get_subject_name issuer)
        (X509_get0_pubkey_bitstr issuer) none

/-! ## DER tag-length-value framing

Used to state what "content octets, tag and length excluded" means for the
issuer-key hash, and to model the top-level framing the response decoder
consumes. -/

/-- Big-endian base-256 octets of a natural number (most significant first). -/
def natToBytesBE (n : Nat) : List Nat :=
  if _h : n < 256 then [n]
  else natToBytesBE (n / 256) ++ [n % 256]
decreasing_by
  exact Nat.div_lt_self (by omega) (by omega)

/-- Read back a big-endian base-256 octet list. -/
def bytesToNat (bs : List Nat) : Nat :=
  bs.foldl (fun a b => a * 256 + b) 0

/-- DER definite-length octets for a content length `n`: short form below
128, otherwise long form with a leading count octet. -/
def derLenOctets (n : Nat) : List Nat :=
  if n < 128 then [n]
  else (128 + (natToBytesBE n).length) :: natToBytesBE n

/-- DER encoding of one tag-length-value element. -/
def derTLV (tag : Nat) (content : List Nat) : List Nat :=
  tag :: derLenOctets content.length ++ content

/-- Parse a DER definite length: the length and the remaining octets. -/
def parseLenOctets : List Nat → Option (Nat × List Nat)
  | [] => none
  | b :: rest =>
    if b < 128 then some (b, rest)
    else if b - 128 = 0 then none
    else if rest.length < b - 128 then none
    else some (bytesToNat (rest.take (b - 128)), rest.drop (b - 128))

/-- Parse one DER TLV element off the front of a buffer: its tag, its content
octets, and the octets that follow the element. -/
def parseTLV (bs : List Nat) : Option (Nat × List Nat × List Nat) :=
  match bs with
  | [] => none
  | t :: rest =>
    match parseLenOctets rest with
    | none => none
    | some (len, rest2) =>
      if rest2.length < len then none
      else some (t, rest2.take len, rest2.drop len)

/-- The content octets of a single complete DER element: what remains after
removing exactly the tag octet and the length octets.  `none` if the buffer
is not one complete element. -/
def contentOctets (bs : List Nat) : Option (List Nat) :=
  match parseTLV bs with
  | some (_, c, []) => some c
  | _ => none

/-- The full DER encoding (tag and length octets included) of a BIT STRING
with the given content octets; tag number 3. -/
def derEncodeBitString (k : ASN1_BIT_STRING) : List Nat :=
  derTLV 3 k.data

/-! ## The response envelope (`ocsp.h`, `ocsp_lib.c`) -/

/-- OCSP response status, the six codes of `CCollectionSigning_ocsp.h`. -/
def OCSP_RESPONSE_STATUS_SUCCESSFUL : Nat := 0

/-- `OCSP_RESPONSE_STATUS_MALFORMEDREQUEST` from the header. -/
def OCSP_RESPONSE_STATUS_MALFORMEDREQUEST : Nat := 1

/-- `OCSP_RESPONSE_STATUS_INTERNALERROR` from the header. -/
def OCSP_RESPONSE_STATUS_INTERNALERROR : Nat := 2

/-- `OCSP_RESPONSE_STATUS_TRYLATER` from the header. -/
def OCSP_RESPONSE_STATUS_TRYLATER : Nat := 3

/-- `OCSP_RESPONSE_STATUS_SIGREQUIRED` from the header. -/
def OCSP_RESPONSE_STATUS_SIGREQUIRED : Nat := 5

/-- `OCSP_RESPONSE_STATUS_UNAUTHORIZED` from the header. -/
def OCSP_RESPONSE_STATUS_UNAUTHORIZED : Nat := 6

/-- `NID_id_pkix_OCSP_basic` from the header: the registry number of the
"basic" response content type. -/
def NID_id_pkix_OCSP_basic : Nat := 365

/-- The ResponseStatus enumeration of the data model. -/
inductive OCSPResponseStatus where
  | Successful
  | MalformedRequest
  | InternalError
  | TryLater
  | SigRequired
  | Unauthorized
deriving DecidableEq, Repr

/-- The numeric wire code of each response status, as fixed by the header's
macro constants. -/
def OCSPResponseStatus.code : OCSPResponseStatus → Nat
  | .Successful => OCSP_RESPONSE_STATUS_SUCCESSFUL
  | .MalformedRequest => OCSP_RESPONSE_STATUS_MALFORMEDREQUEST
  | .InternalError => OCSP_RESPONSE_STATUS_INTERNALERROR
  | .TryLater => OCSP_RESPONSE_STATUS_TRYLATER
  | .SigRequired => OCSP_RESPONSE_STATUS_SIGREQUIRED
  | .Unauthorized => OCSP_RESPONSE_STATUS_UNAUTHORIZED

/-- The status, if any, a numeric wire code decodes to. -/
def statusOfCode (n : Nat) : Option OCSPResponseStatus :=
  if n = OCSP_RESPONSE_STATUS_SUCCESSFUL then some .Successful
  else if n = OCSP_RESPONSE_STATUS_MALFORMEDREQUEST then some .MalformedRequest
  else if n = OCSP_RESPONSE_STATUS_INTERNALERROR then some .InternalError
  else if n = OCSP_RESPONSE_STATUS_TRYLATER then some .TryLater
  else if n = OCSP_RESPONSE_STATUS_SIGREQUIRED then some .SigRequired
  else if n = OCSP_RESPONSE_STATUS_UNAUTHORIZED then some .Unauthorized
  else none

/-- A decoded OCSP response (`OCSP_RESPONSE`): its status and, when present,
the embedded basic response payload kept as its DER octets (the payload's
internal structure is outside the claims' scope). -/
structure OCSP_RESPONSE where
  status : OCSPResponseStatus
  basic : Option (List Nat)
deriving DecidableEq, Repr

/-- The envelope codec's failure taxonomy, from the design's error model. -/
inductive CodecError where
  | MalformedEncoding
  | UnsupportedResponseType
  | UnsupportedStatus
  | TrailingDataError
deriving DecidableEq, Repr

/-- Modelled from the spec: the repository's generic ASN.1 reader
(`ASN1_d2i_bio_of` of `CCollectionSigning_asn1.h`, not in the excerpt)
decoding the `responseBytes` payload of a successful response — an explicit
`[0]` wrapper (tag 0xA0) around a SEQUENCE of the content-type object
identifier and an OCTET STRING holding the basic response DER.  Only the
"basic" content type (registry number 365) is accepted; any other embedded
type is `UnsupportedResponseType`. -/
def decodeResponseBytes (bs : List Nat) : Except CodecError (List Nat) :=
  match parseTLV bs with
  | none => .error .MalformedEncoding
  | some (t0, inner, _) =>
    if t0 = 160 then
      match parseTLV inner with
      | none => .error .MalformedEncoding
      | some (ts, seqc, _) =>
        if ts = 48 then
          match parseTLV seqc with
          | none => .error .MalformedEncoding
          | some (toid, oidc, rest3) =>
            if toid = 6 then
              if bytesToNat oidc = NID_id_pkix_OCSP_basic then
                match parseTLV rest3 with
                | some (4, octets, _) => .ok octets
                | _ => .error .MalformedEncoding
              else .error .UnsupportedResponseType
            else .error .MalformedEncoding
        else .error .MalformedEncoding
    else .error .MalformedEncoding

/-- Modelled from the spec: decoding of the top-level response SEQUENCE's
content — the status is parsed first (an ENUMERATED, tag 0x0A, one content
octet); a code outside the six defined values is `UnsupportedStatus`; only a
`Successful` status continues into the `responseBytes` payload, every other
status yields a response with no basic payload. -/
def decodeResponseContent (content : List Nat) : Except CodecError OCSP_RESPONSE :=
  match parseTLV content with
  | none => .error .MalformedEncoding
  | some (t, sc, rest) =>
    if t = 10 then
      match sc with
      | [b] =>
        match statusOfCode b with
        | none => .error .UnsupportedStatus
        | some st =>
          if st = .Successful then
            match decodeResponseBytes rest with
            | .error e => .error e
            | .ok basicDer => .ok { status := st, basic := some basicDer }
          else .ok { status := st, basic := none }
      | _ => .error .MalformedEncoding
    else .error .MalformedEncoding

/-- Modelled from the spec: `d2i_OCSP_RESPONSE_bio` of `ocsp_lib.c` delegates
to the repository's generic ASN.1 reader (`ASN1_d2i_bio_of`, not in the
excerpt): one complete top-level SEQUENCE (tag 0x30) is framed off the
buffer and decoded, and octets trailing the declared top-level structure are
rejected as `TrailingDataError`. -/
def d2i_OCSP_RESPONSE_bio (bs : List Nat) : Except CodecError OCSP_RESPONSE :=
  match parseTLV bs with
  | none => .error .MalformedEncoding
  | some (t, content, rest) =>
    if t = 48 then
      match decodeResponseContent content with
      | .error e => .error e
      | .ok r => if rest = [] then .ok r else .error .TrailingDataError
    else .error .MalformedEncoding

/-- DER encoding of a response, the inverse shape of the decoder: used to
exhibit valid, complete top-level response encodings. -/
def encodeResponse (r : OCSP_RESPONSE) : List Nat :=
  derTLV 48
    (derTLV 10 [r.status.code] ++
      (match r.basic with
       | none => []
       | some basicDer =>
           derTLV 160
             (derTLV 48
               (derTLV 6 (natToBytesBE NID_id_pkix_OCSP_basic) ++
                 derTLV 4 basicDer))))

/-! ## Concrete fixtures used by the witnesses -/

/-- A name whose canonical encoding is three octets. -/
def testName1 : X509_NAME := ⟨some [1, 2, 3]⟩

/-- A name whose canonical encoding is two octets. -/
def testName2 : X509_NAME := ⟨some [4, 5]⟩

/-- A public-key bit-string: a zero unused-bits octet and two key octets. -/
def testKey : ASN1_BIT_STRING := ⟨[0, 9, 9]⟩

/-- A subject certificate fixture. -/
def testSubject : X509 where
  subject_name := testName2
  issuer_name := testName1
  serialNumber := 7
  pubkey_bitstr := ⟨[2, 2]⟩

/-- An issuer certificate fixture. -/
def testIssuer : X509 where
  subject_name := testName1
  issuer_name := testName2
  serialNumber := 3
  pubkey_bitstr := testKey

/-- A digest descriptor with no registered object identifier: its type is
`NID_undef`. -/
def undefMD : EVP_MD where
  nid := NID_undef
  mdSize := 20
  digest := sha1Stub
  digest_len := fun _ => List.length_replicate 20 _

/-- The CertID built with SHA-1 from `testSubject` and `testIssuer`. -/
def testCid1 : OCSP_CERTID where
  hashAlgorithm := { algorithm := ⟨64⟩, parameter := some { type := V_ASN1_NULL } }
  issuerNameHash := List.replicate 20 6
  issuerKeyHash := List.replicate 20 18
  serialNumber := some 7

/-- The CertID built with SHA-1 from `testIssuer` alone (no subject). -/
def testCid2 : OCSP_CERTID where
  hashAlgorithm := { algorithm := ⟨64⟩, parameter := some { type := V_ASN1_NULL } }
  issuerNameHash := List.replicate 20 6
  issuerKeyHash := List.replicate 20 18
  serialNumber := none

/-- A complete top-level encoding of a malformed-request response. -/
def testResponseBytes : List Nat :=
  encodeResponse { status := .MalformedRequest, basic := none }

/-! ## DER framing lemmas -/

theorem bytesToNat_append_single (xs : List Nat) (b : Nat) :
    bytesToNat (xs ++ [b]) = bytesToNat xs * 256 + b := by
  simp [bytesToNat, List.foldl_append]

theorem bytesToNat_natToBytesBE (n : Nat) : bytesToNat (natToBytesBE n) = n := by
  induction n using Nat.strong_induction_on with
  | _ n ih =>
    rw [natToBytesBE]
    split
    · simp [bytesToNat]
    · rw [bytesToNat_append_single,
        ih (n / 256) (Nat.div_lt_self (by omega) (by omega))]
      omega

theorem natToBytesBE_ne_nil (n : Nat) : natToBytesBE n ≠ [] := by
  rw [natToBytesBE]
  split <;> simp

theorem parseLenOctets_der (n : Nat) (tail : List Nat) :
    parseLenOctets (derLenOctets n ++ tail) = some (n, tail) := by
  rw [derLenOctets]
  split
  · rename_i h
    rw [List.singleton_append]
    simp only [parseLenOctets]
    rw [if_pos h]
  · have hne := natToBytesBE_ne_nil n
    have hlen : 1 ≤ (natToBytesBE n).length := by
      cases h : natToBytesBE n with
      | nil => exact absurd h hne
      | cons a l => simp
    simp only [List.cons_append, parseLenOctets]
    rw [if_neg (by omega), if_neg (by omega),
      if_neg (by simp only [List.length_append]; omega)]
    simp only [Nat.add_sub_cancel_left]
    rw [List.take_left' rfl, List.drop_left' rfl, bytesToNat_natToBytesBE]

theorem parseTLV_derTLV (t : Nat) (c ex : List Nat) :
    parseTLV (derTLV t c ++ ex) = some (t, c, ex) := by
  rw [derTLV]
  simp only [List.cons_append, List.append_assoc, parseTLV, parseLenOctets_der]
  rw [if_neg (by simp only [List.length_append]; omega),
    List.take_left' rfl, List.drop_left' rfl]

theorem parseLenOctets_append (xs ex : List Nat) (n : Nat) (r : List Nat)
    (h : parseLenOctets xs = some (n, r)) :
    parseLenOctets (xs ++ ex) = some (n, r ++ ex) := by
  cases xs with
  | nil => simp [parseLenOctets] at h
  | cons b rest =>
    simp only [parseLenOctets, List.cons_append] at h ⊢
    split at h
    · simp only [Option.some.injEq, Prod.mk.injEq] at h
      rw [if_pos ‹b < 128›]
      simp [h.1, h.2]
    · rw [if_neg ‹¬ b < 128›]
      split at h
      · simp at h
      · split at h
        · simp at h
        · simp only [Option.some.injEq, Prod.mk.injEq] at h
          have hk : b - 128 ≤ rest.length := by omega
          rw [if_neg ‹¬ b - 128 = 0›,
            if_neg (by simp only [List.length_append]; omega),
            List.take_append_of_le_length hk, List.drop_append_of_le_length hk]
          simp [h.1, h.2]

theorem parseTLV_append (bs ex : List Nat) (t : Nat) (c r : List Nat)
    (h : parseTLV bs = some (t, c, r)) :
    parseTLV (bs ++ ex) = some (t, c, r ++ ex) := by
  cases bs with
  | nil => simp [parseTLV] at h
  | cons b rest =>
    cases hl : parseLenOctets rest with
    | none => simp only [parseTLV, hl] at h; simp at h
    | some p =>
      obtain ⟨len, rest2⟩ := p
      simp only [parseTLV, hl] at h
      simp only [List.cons_append, parseTLV,
        parseLenOctets_append rest ex len rest2 hl]
      split at h
      · simp at h
      · simp only [Option.some.injEq, Prod.mk.injEq] at h
        have hlen : len ≤ rest2.length := by omega
        rw [if_neg (by simp only [List.length_append]; omega),
          List.take_append_of_le_length hlen, List.drop_append_of_le_length hlen]
        simp [h.1, h.2.1, h.2.2]

/-! ## CertID builder lemmas -/

theorem OCSP_cert_id_new_ok {dgst : EVP_MD} {name : X509_NAME}
    {key : ASN1_BIT_STRING} {serial : Option ASN1_INTEGER} {cid : OCSP_CERTID}
    (h : OCSP_cert_id_new dgst name key serial = .ok cid) :
    EVP_MD_type dgst ≠ NID_undef ∧
    X509_NAME_digest name dgst = some cid.issuerNameHash ∧
    cid.hashAlgorithm = { algorithm := ⟨EVP_MD_type dgst⟩
                          parameter := some { type := V_ASN1_NULL } } ∧
    cid.issuerKeyHash = EVP_Digest key.data dgst ∧
    cid.serialNumber = serial := by
  unfold OCSP_cert_id_new at h
  split at h
  · simp at h
  · rename_i hnid
    simp only [OBJ_nid2obj, if_neg hnid] at h
    cases hd : X509_NAME_digest name dgst with
    | none =>
      simp only [hd] at h
      exact Except.noConfusion h
    | some nh =>
      simp only [hd, Except.ok.injEq] at h
      subst h
      exact ⟨hnid, rfl, rfl, rfl, rfl⟩

theorem OCSP_cert_id_new_serial_swap {dgst : EVP_MD} {name : X509_NAME}
    {key : ASN1_BIT_STRING} {serial : Option ASN1_INTEGER} {cid : OCSP_CERTID}
    (h : OCSP_cert_id_new dgst name key serial = .ok cid)
    (serial2 : Option ASN1_INTEGER) :
    OCSP_cert_id_new dgst name key serial2 =
      .ok { cid with serialNumber := serial2 } := by
  unfold OCSP_cert_id_new at h ⊢
  split at h
  · simp at h
  · rename_i hnid
    rw [if_neg hnid]
    simp only [OBJ_nid2obj, if_neg hnid] at h ⊢
    cases hd : X509_NAME_digest name dgst with
    | none =>
      simp only [hd] at h
      exact Except.noConfusion h
    | some nh =>
      simp only [hd, Except.ok.injEq] at h ⊢
      rw [← h]


/-! ## Claim theorems -/

/-- C1: for every digest algorithm and every issuer certificate, the
issuer-key hash stored in the CertID produced by the builder equals the
digest of exactly the issuer public-key bit-string's content octets — what
remains of the bit-string's DER encoding once the tag and length octets are
excluded from the digest input. -/
theorem certid_issuer_key_hash_over_content_octets (d : EVP_MD)
    (s : Option X509) (i : X509) (cid : OCSP_CERTID)
    (h : OCSP_cert_to_id (some d) s i = .ok cid) :
    contentOctets (derEncodeBitString (X509_get0_pubkey_bitstr i)) =
      some (X509_get0_pubkey_bitstr i).data ∧
    cid.issuerKeyHash = d.digest (X509_get0_pubkey_bitstr i).data := by
  constructor
  · rw [contentOctets, derEncodeBitString]
    have hp := parseTLV_derTLV 3 (X509_get0_pubkey_bitstr i).data []
    rw [List.append_nil] at hp
    rw [hp]
  · cases s with
    | some sc =>
      simp only [OCSP_cert_to_id, Option.getD_some] at h
      exact (OCSP_cert_id_new_ok h).2.2.2.1
    | none =>
      simp only [OCSP_cert_to_id, Option.getD_some] at h
      exact (OCSP_cert_id_new_ok h).2.2.2.1

/-- C1 witness: the key hash of the CertID built from the concrete fixtures
is the digest of the issuer bit-string's content octets. -/
theorem certid_issuer_key_hash_over_content_octets_check :
    contentOctets (derEncodeBitString (X509_get0_pubkey_bitstr testIssuer)) =
      some (X509_get0_pubkey_bitstr testIssuer).data ∧
    testCid1.issuerKeyHash = EVP_sha1.digest (X509_get0_pubkey_bitstr testIssuer).data :=
  certid_issuer_key_hash_over_content_octets EVP_sha1 (some testSubject)
    testIssuer testCid1 rfl

/-- C2: with a subject certificate the hashed name is the subject's issuer
field and the CertID's serial number is the subject's serial number; without
a subject the hashed name is the issuer's own subject field and no serial
number is set. -/
theorem cert_to_id_name_and_serial_selection (d : EVP_MD) (s i : X509)
    (cid cid2 : OCSP_CERTID)
    (h1 : OCSP_cert_to_id (some d) (some s) i = .ok cid)
    (h2 : OCSP_cert_to_id (some d) none i = .ok cid2) :
    X509_NAME_digest (X509_get_issuer_name s) d = some cid.issuerNameHash ∧
    cid.serialNumber = some (X509_get0_serialNumber s) ∧
    X509_NAME_digest (X509_get_subject_name i) d = some cid2.issuerNameHash ∧
    cid2.serialNumber = none := by
  simp only [OCSP_cert_to_id, Option.getD_some] at h1 h2
  have a1 := OCSP_cert_id_new_ok h1
  have a2 := OCSP_cert_id_new_ok h2
  exact ⟨a1.2.1, a1.2.2.2.2, a2.2.1, a2.2.2.2.2⟩

/-- C2 witness: on the concrete fixtures, the subject's issuer name (resp.
the issuer's subject name) is the one hashed and the serial number is the
subject's (resp. absent). -/
theorem cert_to_id_name_and_serial_selection_check :
    X509_NAME_digest (X509_get_issuer_name testSubject) EVP_sha1 =
      some testCid1.issuerNameHash ∧
    testCid1.serialNumber = some (X509_get0_serialNumber testSubject) ∧
    X509_NAME_digest (X509_get_subject_name testIssuer) EVP_sha1 =
      some testCid2.issuerNameHash ∧
    testCid2.serialNumber = none :=
  cert_to_id_name_and_serial_selection EVP_sha1 testSubject testIssuer
    testCid1 testCid2 rfl rfl

/-- C3: the CertID built from a digest algorithm and a certificate pair
carries that algorithm's registered object in its hashAlgorithm, and both
hash fields have exactly the algorithm's declared output length. -/
theorem certid_algorithm_and_hash_lengths (d : EVP_MD) (s i : X509)
    (cid : OCSP_CERTID)
    (h : OCSP_cert_to_id (some d) (some s) i = .ok cid) :
    cid.hashAlgorithm.algorithm = ⟨EVP_MD_type d⟩ ∧
    cid.issuerNameHash.length = d.mdSize ∧
    cid.issuerKeyHash.length = d.mdSize := by
  simp only [OCSP_cert_to_id, Option.getD_some] at h
  obtain ⟨-, hname, halg, hkey, -⟩ := OCSP_cert_id_new_ok h
  refine ⟨by rw [halg], ?_, by rw [hkey]; exact d.digest_len _⟩
  rw [X509_NAME_digest, Option.map_eq_some'] at hname
  obtain ⟨enc, -, henc⟩ := hname
  rw [← henc]
  exact d.digest_len enc

/-- C3 witness: on the concrete fixtures both hashes are 20 octets long, the
declared SHA-1 output length, and the algorithm is SHA-1's object. -/
theorem certid_algorithm_and_hash_lengths_check :
    testCid1.hashAlgorithm.algorithm = ⟨EVP_MD_type EVP_sha1⟩ ∧
    testCid1.issuerNameHash.length = EVP_sha1.mdSize ∧
    testCid1.issuerKeyHash.length = EVP_sha1.mdSize :=
  certid_algorithm_and_hash_lengths EVP_sha1 testSubject testIssuer testCid1 rfl

/-- C4: a call with an unspecified digest algorithm builds the CertID exactly
as if SHA-1 had been passed explicitly. -/
theorem cert_to_id_default_digest_sha1 (s : Option X509) (i : X509) :
    OCSP_cert_to_id none s i = OCSP_cert_to_id (some EVP_sha1) s i := rfl

/-- C5: construction fails with UnsupportedDigest whenever the digest
algorithm has no registered object identifier (its type is the unassigned
NID), and any successful result is a complete CertID — both hashes fully
computed at the declared length, the parameter set, the serial as supplied —
so no partial CertID is ever returned. -/
theorem cert_id_new_unsupported_digest_all_or_nothing (d : EVP_MD)
    (name : X509_NAME) (key : ASN1_BIT_STRING) (serial : Option ASN1_INTEGER) :
    (EVP_MD_type d = NID_undef →
      OCSP_cert_id_new d name key serial = .error .UnsupportedDigest) ∧
    (∀ cid, OCSP_cert_id_new d name key serial = .ok cid →
      cid.issuerNameHash.length = d.mdSize ∧
      cid.issuerKeyHash.length = d.mdSize ∧
      cid.hashAlgorithm.parameter = some { type := V_ASN1_NULL } ∧
      cid.serialNumber = serial) := by
  constructor
  · intro hu
    unfold OCSP_cert_id_new
    rw [if_pos hu]
  · intro cid h
    obtain ⟨-, hname, halg, hkey, hser⟩ := OCSP_cert_id_new_ok h
    refine ⟨?_, by rw [hkey]; exact d.digest_len _, by rw [halg], hser⟩
    rw [X509_NAME_digest, Option.map_eq_some'] at hname
    obtain ⟨enc, -, henc⟩ := hname
    rw [← henc]
    exact d.digest_len enc

/-- C5 witness: the digest descriptor with the unassigned NID makes the
builder fail with UnsupportedDigest, and a concrete successful build is a
complete CertID. -/
theorem cert_id_new_unsupported_digest_all_or_nothing_check :
    OCSP_cert_id_new undefMD testName1 testKey none = .error .UnsupportedDigest ∧
    (testCid1.issuerNameHash.length = EVP_sha1.mdSize ∧
     testCid1.issuerKeyHash.length = EVP_sha1.mdSize ∧
     testCid1.hashAlgorithm.parameter = some { type := V_ASN1_NULL } ∧
     testCid1.serialNumber = some 7) :=
  ⟨(cert_id_new_unsupported_digest_all_or_nothing undefMD testName1 testKey none).1 rfl,
   (cert_id_new_unsupported_digest_all_or_nothing EVP_sha1 testName1 testKey
      (some 7)).2 testCid1 rfl⟩

/-- C6: changing only the serial number of the subject certificate changes
only the serialNumber field of the resulting CertID — the result is exactly
the original CertID with its serial number replaced, the two hashes and the
algorithm untouched. -/
theorem cert_to_id_serial_number_frame (d : EVP_MD) (s i : X509)
    (n : ASN1_INTEGER) (cid : OCSP_CERTID)
    (h : OCSP_cert_to_id (some d) (some s) i = .ok cid) :
    OCSP_cert_to_id (some d) (some { s with serialNumber := n }) i =
      .ok { cid with serialNumber := some n } := by
  simp only [OCSP_cert_to_id, Option.getD_some, X509_get_issuer_name,
    X509_get0_serialNumber, X509_get0_pubkey_bitstr] at h ⊢
  exact OCSP_cert_id_new_serial_swap h (some n)

/-- C6 witness: replacing the fixture subject's serial number 7 by 11 yields
the same CertID with only the serial number changed. -/
theorem cert_to_id_serial_number_frame_check :
    OCSP_cert_to_id (some EVP_sha1) (some { testSubject with serialNumber := 11 })
      testIssuer = .ok { testCid1 with serialNumber := some 11 } :=
  cert_to_id_serial_number_frame EVP_sha1 testSubject testIssuer 11 testCid1 rfl

/-- C7: the ResponseStatus enumeration maps its six members to the fixed
numeric codes 0, 1, 2, 3, 5 and 6 of the header, and code 4 is assigned to
no status. -/
theorem response_status_codes :
    OCSPResponseStatus.code .Successful = 0 ∧
    OCSPResponseStatus.code .MalformedRequest = 1 ∧
    OCSPResponseStatus.code .InternalError = 2 ∧
    OCSPResponseStatus.code .TryLater = 3 ∧
    OCSPResponseStatus.code .SigRequired = 5 ∧
    OCSPResponseStatus.code .Unauthorized = 6 ∧
    ∀ st : OCSPResponseStatus, OCSPResponseStatus.code st ≠ 4 := by
  refine ⟨rfl, rfl, rfl, rfl, rfl, rfl, ?_⟩
  intro st
  cases st <;> decide

/-- C8: a buffer holding a valid, complete top-level response encoding
followed by at least one extra trailing octet is rejected by the decoder
with TrailingDataError rather than decoded. -/
theorem decode_response_trailing_data (bs extra : List Nat)
    (r : OCSP_RESPONSE) (h : d2i_OCSP_RESPONSE_bio bs = .ok r)
    (hx : extra ≠ []) :
    d2i_OCSP_RESPONSE_bio (bs ++ extra) = .error .TrailingDataError := by
  cases hp : parseTLV bs with
  | none =>
    simp only [d2i_OCSP_RESPONSE_bio, hp] at h
    exact Except.noConfusion h
  | some p =>
    obtain ⟨t, content, rest⟩ := p
    simp only [d2i_OCSP_RESPONSE_bio, hp] at h
    split at h
    · rename_i ht
      cases hd : decodeResponseContent content with
      | error e =>
        simp only [hd] at h
        exact Except.noConfusion h
      | ok r0 =>
        simp only [hd] at h
        split at h
        · rename_i hrest
          have hp2 := parseTLV_append bs extra t content rest hp
          rw [hrest, List.nil_append] at hp2
          simp only [d2i_OCSP_RESPONSE_bio, hp2, if_pos ht, hd]
          rw [if_neg hx]
        · exact absurd h (by simp)
    · exact absurd h (by simp)

/-- C8 witness: the complete encoding of a malformed-request response with
one extra zero octet appended is rejected as TrailingDataError. -/
theorem decode_response_trailing_data_check :
    d2i_OCSP_RESPONSE_bio (testResponseBytes ++ [0]) = .error .TrailingDataError :=
  decode_response_trailing_data testResponseBytes [0]
    { status := .MalformedRequest, basic := none } rfl (by decide)

/-- C9: the high-level entry point adds no behavior beyond field extraction
and delegation — it returns exactly what the lower-level builder returns on
the branch-selected name, the issuer's public-key bit-string and the
branch-selected serial number, with SHA-1 substituted for a missing
digest. -/
theorem cert_to_id_delegates_to_cert_id_new (d : Option EVP_MD)
    (s : Option X509) (i : X509) :
    OCSP_cert_to_id d s i =
      OCSP_cert_id_new (d.getD EVP_sha1)
        (match s with
         | some sc => X509_get_issuer_name sc
         | none => X509_get_subject_name i)
        (X509_get0_pubkey_bitstr i)
        (match s with
         | some sc => some (X509_get0_serialNumber sc)
         | none => none) := by
  cases s <;> rfl

/-- C10: every successfully built CertID has its hashAlgorithm's parameter
present and set to the ASN.1 NULL type, not left absent. -/
theorem certid_algorithm_parameter_is_asn1_null (d : EVP_MD)
    (name : X509_NAME) (key : ASN1_BIT_STRING)
    (serial : Option ASN1_INTEGER) (cid : OCSP_CERTID)
    (h : OCSP_cert_id_new d name key serial = .ok cid) :
    cid.hashAlgorithm.parameter = some { type := V_ASN1_NULL } := by
  rw [(OCSP_cert_id_new_ok h).2.2.1]

/-- C10 witness: the concrete fixture CertID carries the ASN.1 NULL
parameter. -/
theorem certid_algorithm_parameter_is_asn1_null_check :
    testCid1.hashAlgorithm.parameter = some { type := V_ASN1_NULL } :=
  certid_algorithm_parameter_is_asn1_null EVP_sha1 testName1 testKey
    (some 7) testCid1 rfl
